import Mathlib

/-!
Shallow embedding of the hand-gesture particle visualization:
the gesture classifier (`predictWebcam` in App), the vision service's
frame-rate limiter (`detect` in visionService), the scene controller's
particle generation (`initParticles`), per-frame morph interpolation and
color switch (`animate`), normalized-coordinate unprojection
(`updateHandPosition`), and teardown (`cleanup`).
All numeric values are modelled over the reals.
-/

namespace VBall

open Classical

noncomputable section

/-! ### Constants (src/constants.ts) -/

def PARTICLE_COUNT : ℕ := 5000

def SPHERE_RADIUS : ℝ := 1.5

def EXPLOSION_RADIUS : ℝ := 8.0

/-- Normalized Euclidean pinch threshold. -/
def PINCH_THRESHOLD : ℝ := 0.08

/-- Fuchsia hue set when the morph factor is past 0.5 (hex 0xe879f9). -/
def colorFuchsia : ℕ := 0xe879f9

/-- Violet hue set when the morph factor is at most 0.5 (hex 0x8b5cf6). -/
def colorViolet : ℕ := 0x8b5cf6

/-! ### Data model (src/types.ts and the MediaPipe result shape used by App) -/

/-- A detector landmark: normalized image coordinates plus relative depth. -/
structure HandLandmark where
  x : ℝ
  y : ℝ
  z : ℝ

/-- One gesture classification with its confidence score. -/
structure GestureCategory where
  categoryName : String
  score : ℝ

/-- The detector result consumed by `predictWebcam`: per-hand landmark lists
and per-hand category lists. -/
structure GestureResult where
  landmarks : List (List HandLandmark)
  gestures : List (List GestureCategory)

/-- The two particle states of `types.ts`. -/
inductive ParticleState where
  | SPHERE
  | EXPLODED
deriving DecidableEq

/-- Out-of-range landmark accesses resolve to the zero landmark. -/
def defaultLandmark : HandLandmark := ⟨0, 0, 0⟩

/-! ### Gesture classifier (predictWebcam in src/unnamed/part_000) -/

/-- The distance computed by `predictWebcam`:
`Math.sqrt(Math.pow(thumbTip.x - indexTip.x, 2) + Math.pow(thumbTip.y - indexTip.y, 2))`. -/
def pinchDistance (thumbTip indexTip : HandLandmark) : ℝ :=
  Real.sqrt ((thumbTip.x - indexTip.x) ^ 2 + (thumbTip.y - indexTip.y) ^ 2)

/-- `detectedGestures.some(g => g.categoryName === 'Open_Palm' && g.score > 0.5)`. -/
def isOpenPalm (gs : List GestureCategory) : Prop :=
  ∃ g ∈ gs, g.categoryName = "Open_Palm" ∧ g.score > 0.5

/-- Observable outcome of one `predictWebcam` invocation: the particle state
afterwards, the tween trigger issued (`some SPHERE` for `triggerAssembly`,
`some EXPLODED` for `triggerExplosion`, `none` when no trigger was issued),
the debug status string, and the hand position forwarded to
`updateHandPosition` (when a hand is present). -/
structure FrameOutput where
  state : ParticleState
  trigger : Option ParticleState
  status : String
  handPos : Option (ℝ × ℝ)

/-- One step of the `predictWebcam` callback, as a function of the previous
particle state (`particleStateRef.current`) and the detector result. -/
def predictWebcam (prev : ParticleState) (results : Option GestureResult) :
    FrameOutput :=
  match results with
  | none => ⟨prev, none, "No Hand Detected", none⟩
  | some res =>
    if res.landmarks.length > 0 then
      let landmarks := res.landmarks.headD []
      let handX := (landmarks.getD 9 defaultLandmark).x
      let handY := (landmarks.getD 9 defaultLandmark).y
      let thumbTip := landmarks.getD 4 defaultLandmark
      let indexTip := landmarks.getD 8 defaultLandmark
      let distance := pinchDistance thumbTip indexTip
      let detectedGestures := res.gestures.headD []
      if distance < PINCH_THRESHOLD then
        if prev ≠ ParticleState.SPHERE then
          ⟨ParticleState.SPHERE, some ParticleState.SPHERE,
            "Gesture: Pinch (Create)", some (handX, handY)⟩
        else
          ⟨ParticleState.SPHERE, none, "Gesture: Pinch (Create)",
            some (handX, handY)⟩
      else if isOpenPalm detectedGestures ∨ distance > 0.2 then
        if prev ≠ ParticleState.EXPLODED then
          ⟨ParticleState.EXPLODED, some ParticleState.EXPLODED,
            "Gesture: Open Palm (Explode)", some (handX, handY)⟩
        else
          ⟨ParticleState.EXPLODED, none, "Gesture: Open Palm (Explode)",
            some (handX, handY)⟩
      else
        ⟨prev, none, "Gesture: Tracking...", some (handX, handY)⟩
    else
      ⟨prev, none, "No Hand Detected", none⟩

/-- The target state a detector result classifies to, independent of the
previous state: `some SPHERE` in the pinch branch, `some EXPLODED` in the
open-palm/wide branch, `none` in the tracking and no-hand branches.
Derived observation used to state idempotence; its coherence with
`predictWebcam` is proved below. -/
def classifyTarget (results : Option GestureResult) : Option ParticleState :=
  match results with
  | none => none
  | some res =>
    if res.landmarks.length > 0 then
      let landmarks := res.landmarks.headD []
      let thumbTip := landmarks.getD 4 defaultLandmark
      let indexTip := landmarks.getD 8 defaultLandmark
      let distance := pinchDistance thumbTip indexTip
      let detectedGestures := res.gestures.headD []
      if distance < PINCH_THRESHOLD then some ParticleState.SPHERE
      else if isOpenPalm detectedGestures ∨ distance > 0.2 then
        some ParticleState.EXPLODED
      else none
    else none

/-- Number of tween invocations issued by one frame output (0 or 1). -/
def numTriggers (o : FrameOutput) : ℕ :=
  if o.trigger.isSome then 1 else 0

/-- The relation of claim C10: two detector results that agree on the gesture
classifications, on the hand-list shape, and on the x and y components of
every landmark, while their z components may differ at the thumb-tip
(index 4) and index-tip (index 8). -/
def agreesExceptTipZ (r r₂ : GestureResult) : Prop :=
  r.gestures = r₂.gestures ∧
  r.landmarks.length = r₂.landmarks.length ∧
  ∀ h : ℕ,
    (r.landmarks.getD h []).length = (r₂.landmarks.getD h []).length ∧
    ∀ i : ℕ,
      ((r.landmarks.getD h []).getD i defaultLandmark).x =
        ((r₂.landmarks.getD h []).getD i defaultLandmark).x ∧
      ((r.landmarks.getD h []).getD i defaultLandmark).y =
        ((r₂.landmarks.getD h []).getD i defaultLandmark).y ∧
      (i ≠ 4 → i ≠ 8 →
        ((r.landmarks.getD h []).getD i defaultLandmark).z =
          ((r₂.landmarks.getD h []).getD i defaultLandmark).z)

/-! ### Vision service (src/services/visionService.ts) -/

/-- The mutable state of `VisionService`: whether `gestureRecognizer` is
non-null, and `lastVideoTime` (initialized to `-1`). -/
structure VisionState where
  ready : Bool
  lastVideoTime : ℝ

/-- The initial vision-service state: recognizer loaded, `lastVideoTime = -1`. -/
def initialVisionState : VisionState := ⟨true, -1⟩

/-- `VisionService.detect`. The abstract `recognize` argument stands for
`gestureRecognizer.recognizeForVideo` on the current frame. Returns the
result handed back to the caller, the updated service state, and whether
the recognizer was actually invoked. -/
def detect (recognize : ℝ → GestureResult) (st : VisionState)
    (currentTime : ℝ) : Option GestureResult × VisionState × Bool :=
  if st.ready = false then (none, st, false)
  else if currentTime ≠ st.lastVideoTime then
    (some (recognize currentTime), ⟨st.ready, currentTime⟩, true)
  else (none, st, false)

/-- Repeated `detect` calls over a sequence of video timestamps, collecting
the timestamps at which the recognizer was invoked. -/
def runDetect (recognize : ℝ → GestureResult) :
    VisionState → List ℝ → VisionState × List ℝ
  | st, [] => (st, [])
  | st, t :: ts =>
    let step := detect recognize st t
    let rest := runDetect recognize step.2.1 ts
    (rest.1, if step.2.2 = true then t :: rest.2 else rest.2)

/-! ### Render loop (animate in src/components/SceneController.ts) -/

/-- The per-frame mutable render state touched by `animate`: rotation
angles, the position buffer (indexed by scalar coordinate), and the
material color. -/
structure RenderState where
  rotY : ℝ
  rotZ : ℝ
  positions : ℕ → ℝ
  colorHex : ℕ

/-- One pass of the `animate` body over the particle data: advance the two
rotation angles, recompute each of the `3 * PARTICLE_COUNT` buffer scalars
as `spherePositions[j] * (1 - factor) + explosionPositions[j] * factor`,
and set the material color by thresholding the factor at 0.5. -/
def animateFrame (sphereP explosionP : ℕ → ℝ) (factor : ℝ)
    (st : RenderState) : RenderState :=
  ⟨st.rotY + 0.002, st.rotZ + 0.001,
    fun j =>
      if j < 3 * PARTICLE_COUNT then
        sphereP j * (1 - factor) + explosionP j * factor
      else st.positions j,
    if factor > 0.5 then colorFuchsia else colorViolet⟩

/-! ### Particle generation (initParticles in src/components/SceneController.ts) -/

/-- A 3D point or vector. -/
structure Vec3 where
  x : ℝ
  y : ℝ
  z : ℝ

/-- `Vector3.length()`-style Euclidean norm. -/
def norm3 (v : Vec3) : ℝ := Real.sqrt (v.x ^ 2 + v.y ^ 2 + v.z ^ 2)

def subV (a b : Vec3) : Vec3 := ⟨a.x - b.x, a.y - b.y, a.z - b.z⟩

def addV (a b : Vec3) : Vec3 := ⟨a.x + b.x, a.y + b.y, a.z + b.z⟩

def smulV (c : ℝ) (v : Vec3) : Vec3 := ⟨c * v.x, c * v.y, c * v.z⟩

/-- `Vector3.normalize()`: divide by the length (division by zero yields the
zero vector, matching the model's total division). -/
def normalize3 (v : Vec3) : Vec3 := smulV (1 / norm3 v) v

/-- The i-th assembled (sphere) point of `initParticles`:
`phi = acos(-1 + 2i/n)`, `theta = sqrt(n*π) * phi`, scaled to `radius`. -/
def spherePoint (n : ℕ) (radius : ℝ) (i : ℕ) : Vec3 :=
  let phi := Real.arccos (-1 + (2 * (i : ℝ)) / (n : ℝ))
  let theta := Real.sqrt ((n : ℝ) * Real.pi) * phi
  ⟨radius * Real.cos theta * Real.sin phi,
    radius * Real.sin theta * Real.sin phi,
    radius * Real.cos phi⟩

/-- One exploded point of `initParticles`, given the three uniform samples
`u`, `v`, `w` drawn for it: `thetaR = 2πu`, `phiR = acos(2v - 1)`,
`r = sphereRadius + w * (explosionRadius - sphereRadius)`. -/
def explosionPoint (sphereRadius explosionRadius : ℝ) (u v w : ℝ) : Vec3 :=
  let thetaR := 2 * Real.pi * u
  let phiR := Real.arccos (2 * v - 1)
  let r := sphereRadius + w * (explosionRadius - sphereRadius)
  ⟨r * Real.sin phiR * Real.cos thetaR,
    r * Real.sin phiR * Real.sin thetaR,
    r * Real.cos phiR⟩

/-- The assembled point set, as built by the `initParticles` loop. -/
def spherePositions (n : ℕ) (radius : ℝ) : List Vec3 :=
  (List.range n).map (spherePoint n radius)

/-- The exploded point set, as built by the `initParticles` loop; `rand k`
is the k-th value returned by `Math.random()` (three draws per particle). -/
def explosionPositions (n : ℕ) (sphereRadius explosionRadius : ℝ)
    (rand : ℕ → ℝ) : List Vec3 :=
  (List.range n).map fun i =>
    explosionPoint sphereRadius explosionRadius
      (rand (3 * i)) (rand (3 * i + 1)) (rand (3 * i + 2))

/-! ### Spatial mapping (updateHandPosition in SceneController.ts)

The camera is `new THREE.PerspectiveCamera(75, aspect, 0.1, 100)` at
position `(0, 0, 8)`. `Vector3.unproject` applies the camera's
`projectionMatrixInverse` and then its `matrixWorld`, each application
performing the homogeneous divide. -/

/-- A 4x4 matrix with row-major entry names (`mRC` = row R, column C). -/
structure Mat4 where
  m00 : ℝ
  m01 : ℝ
  m02 : ℝ
  m03 : ℝ
  m10 : ℝ
  m11 : ℝ
  m12 : ℝ
  m13 : ℝ
  m20 : ℝ
  m21 : ℝ
  m22 : ℝ
  m23 : ℝ
  m30 : ℝ
  m31 : ℝ
  m32 : ℝ
  m33 : ℝ

/-- `Vector3.applyMatrix4`: apply the matrix to `(x, y, z, 1)` and divide
by the resulting homogeneous coordinate. -/
def applyMatrix4 (m : Mat4) (v : Vec3) : Vec3 :=
  let w := m.m30 * v.x + m.m31 * v.y + m.m32 * v.z + m.m33
  ⟨(m.m00 * v.x + m.m01 * v.y + m.m02 * v.z + m.m03) / w,
    (m.m10 * v.x + m.m11 * v.y + m.m12 * v.z + m.m13) / w,
    (m.m20 * v.x + m.m21 * v.y + m.m22 * v.z + m.m23) / w⟩

/-- Matrix product, for certifying the closed-form inverse below. -/
def matMul4 (a b : Mat4) : Mat4 :=
  ⟨a.m00 * b.m00 + a.m01 * b.m10 + a.m02 * b.m20 + a.m03 * b.m30,
    a.m00 * b.m01 + a.m01 * b.m11 + a.m02 * b.m21 + a.m03 * b.m31,
    a.m00 * b.m02 + a.m01 * b.m12 + a.m02 * b.m22 + a.m03 * b.m32,
    a.m00 * b.m03 + a.m01 * b.m13 + a.m02 * b.m23 + a.m03 * b.m33,
    a.m10 * b.m00 + a.m11 * b.m10 + a.m12 * b.m20 + a.m13 * b.m30,
    a.m10 * b.m01 + a.m11 * b.m11 + a.m12 * b.m21 + a.m13 * b.m31,
    a.m10 * b.m02 + a.m11 * b.m12 + a.m12 * b.m22 + a.m13 * b.m32,
    a.m10 * b.m03 + a.m11 * b.m13 + a.m12 * b.m23 + a.m13 * b.m33,
    a.m20 * b.m00 + a.m21 * b.m10 + a.m22 * b.m20 + a.m23 * b.m30,
    a.m20 * b.m01 + a.m21 * b.m11 + a.m22 * b.m21 + a.m23 * b.m31,
    a.m20 * b.m02 + a.m21 * b.m12 + a.m22 * b.m22 + a.m23 * b.m32,
    a.m20 * b.m03 + a.m21 * b.m13 + a.m22 * b.m23 + a.m23 * b.m33,
    a.m30 * b.m00 + a.m31 * b.m10 + a.m32 * b.m20 + a.m33 * b.m30,
    a.m30 * b.m01 + a.m31 * b.m11 + a.m32 * b.m21 + a.m33 * b.m31,
    a.m30 * b.m02 + a.m31 * b.m12 + a.m32 * b.m22 + a.m33 * b.m32,
    a.m30 * b.m03 + a.m31 * b.m13 + a.m32 * b.m23 + a.m33 * b.m33⟩

/-- The identity 4x4 matrix. -/
def idMat4 : Mat4 := ⟨1, 0, 0, 0, 0, 1, 0, 0, 0, 0, 1, 0, 0, 0, 0, 1⟩

/-- The symmetric perspective projection matrix built by
`PerspectiveCamera.updateProjectionMatrix` (zoom 1, no view offset):
with `t = tan(fov/2)` the diagonal is `1/(aspect*t), 1/t`, and the depth
row holds `-(far+near)/(far-near)` and `-2*far*near/(far-near)`. -/
def makePerspective (fovDeg aspect near far : ℝ) : Mat4 :=
  let t := Real.tan (fovDeg * Real.pi / 360)
  ⟨1 / (aspect * t), 0, 0, 0,
    0, 1 / t, 0, 0,
    0, 0, -(far + near) / (far - near), -2 * far * near / (far - near),
    0, 0, -1, 0⟩

/-- Closed form of the inverse of `makePerspective`; certified against
`makePerspective` below. This is the camera's `projectionMatrixInverse`. -/
def makePerspectiveInv (fovDeg aspect near far : ℝ) : Mat4 :=
  let t := Real.tan (fovDeg * Real.pi / 360)
  ⟨aspect * t, 0, 0, 0,
    0, t, 0, 0,
    0, 0, 0, -1,
    0, 0, -(far - near) / (2 * far * near), (far + near) / (2 * far * near)⟩

/-- Translation matrix: the `matrixWorld` of an unrotated camera at `p`. -/
def translationMat (p : Vec3) : Mat4 :=
  ⟨1, 0, 0, p.x, 0, 1, 0, p.y, 0, 0, 1, p.z, 0, 0, 0, 1⟩

/-- The camera data `updateHandPosition` reads: world position, inverse
projection, and world matrix. -/
structure Camera where
  position : Vec3
  projectionMatrixInverse : Mat4
  matrixWorld : Mat4

/-- The scene camera of `SceneController`'s constructor:
`PerspectiveCamera(75, aspect, 0.1, 100)` with `position.z = 8`. -/
def sceneCamera (aspect : ℝ) : Camera :=
  ⟨⟨0, 0, 8⟩, makePerspectiveInv 75 aspect 0.1 100, translationMat ⟨0, 0, 8⟩⟩

/-- `Vector3.unproject(camera)`. -/
def unproject (cam : Camera) (v : Vec3) : Vec3 :=
  applyMatrix4 cam.matrixWorld (applyMatrix4 cam.projectionMatrixInverse v)

/-- The normalized ray direction built by `updateHandPosition`:
`vec.set((x*2)-1, -(y*2)+1, 0.5); vec.unproject(camera);
vec.sub(camera.position).normalize()`. -/
def rayDirection (cam : Camera) (x y : ℝ) : Vec3 :=
  normalize3 (subV (unproject cam ⟨x * 2 - 1, -(y * 2) + 1, 0.5⟩) cam.position)

/-- The world point computed by `updateHandPosition`:
`distance = -camera.position.z / vec.z;
pos = camera.position + vec * distance`. -/
def updateHandPosition (cam : Camera) (x y : ℝ) : Vec3 :=
  let vec := rayDirection cam x y
  let distance := -cam.position.z / vec.z
  addV cam.position (smulV distance vec)

/-- The particle-group position targeted after one `updateHandPosition`
call, given the previous group position. The source always issues the
`gsap.to` tween toward the computed point; the previous position is never
retained, whatever the ray direction. -/
def nextHandPos (cam : Camera) (prevPos : Vec3) (x y : ℝ) : Vec3 :=
  updateHandPosition cam x y

/-! ### Teardown (cleanup in src/components/SceneController.ts) -/

/-- Resource-release bookkeeping for `SceneController`: the stored
`frameId` (`none` for the JS `null`), whether the resize listener is
registered, and counters of `renderer.dispose()` and
`cancelAnimationFrame` calls performed so far. -/
structure SceneResources where
  frameId : Option ℕ
  resizeListener : Bool
  disposeCalls : ℕ
  cancelCalls : ℕ

/-- JS truthiness of the stored `frameId` (`null` and `0` are falsy). -/
def truthyFrameId : Option ℕ → Bool
  | none => false
  | some n => n != 0

/-- `cleanup()`: `if (this.frameId) cancelAnimationFrame(this.frameId);
removeEventListener; renderer.dispose()`. Note that `frameId` is not
cleared. -/
def cleanup (s : SceneResources) : SceneResources :=
  ⟨s.frameId, false, s.disposeCalls + 1,
    if truthyFrameId s.frameId then s.cancelCalls + 1 else s.cancelCalls⟩

/-! ## Theorems -/

/-- The closed-form `makePerspectiveInv` is a two-sided inverse of the
projection matrix `makePerspective` whenever the camera parameters are
non-degenerate, so it is exactly the `projectionMatrixInverse` computed by
the renderer. -/
theorem makePerspectiveInv_correct (fovDeg aspect near far : ℝ)
    (ha : aspect ≠ 0) (ht : Real.tan (fovDeg * Real.pi / 360) ≠ 0)
    (hn : near ≠ 0) (hf : far ≠ 0) (hnf : far - near ≠ 0) :
    matMul4 (makePerspective fovDeg aspect near far)
        (makePerspectiveInv fovDeg aspect near far) = idMat4 ∧
    matMul4 (makePerspectiveInv fovDeg aspect near far)
        (makePerspective fovDeg aspect near far) = idMat4 := by
  constructor <;>
    · simp only [makePerspective, makePerspectiveInv, matMul4, idMat4,
        Mat4.mk.injEq]
      refine ⟨?_, ?_, ?_, ?_, ?_, ?_, ?_, ?_, ?_, ?_, ?_, ?_, ?_, ?_, ?_, ?_⟩ <;>
        field_simp <;> ring

/-- C1: each per-frame recomputation of the position buffer writes
`sphere[j] * (1 - f) + explosion[j] * f` into every coordinate `j` of the
buffer; for `f = 0` the buffer coordinate equals the assembled coordinate,
for `f = 1` the exploded coordinate, and for `f = 1/2` the exact
arithmetic mean of the two. -/
theorem claim1_interpolation (sphereP explosionP : ℕ → ℝ) (st : RenderState)
    (factor : ℝ) (j : ℕ) (hj : j < 3 * PARTICLE_COUNT) :
    (animateFrame sphereP explosionP factor st).positions j
        = sphereP j * (1 - factor) + explosionP j * factor ∧
    (factor = 0 →
      (animateFrame sphereP explosionP factor st).positions j = sphereP j) ∧
    (factor = 1 →
      (animateFrame sphereP explosionP factor st).positions j = explosionP j) ∧
    (factor = 1 / 2 →
      (animateFrame sphereP explosionP factor st).positions j
        = (sphereP j + explosionP j) / 2) := by
  refine ⟨by simp [animateFrame, hj], ?_, ?_, ?_⟩
  · rintro rfl; simp [animateFrame, hj]
  · rintro rfl; simp [animateFrame, hj]
  · rintro rfl; simp only [animateFrame, if_pos hj]; ring

/-- Witness for C1 at a concrete buffer and factor 1/2. -/
theorem claim1_interpolation_witness :
    (0 : ℕ) < 3 * PARTICLE_COUNT ∧
    (animateFrame (fun _ => 2) (fun _ => 4) (1 / 2)
        ⟨0, 0, fun _ => 0, 0⟩).positions 0 = 3 := by
  have hj : (0 : ℕ) < 3 * PARTICLE_COUNT := by norm_num [PARTICLE_COUNT]
  have h := (claim1_interpolation (fun _ => 2) (fun _ => 4)
    ⟨0, 0, fun _ => 0, 0⟩ (1 / 2) 0 hj).2.2.2 rfl
  refine ⟨hj, ?_⟩
  rw [h]; norm_num

/-- C7: every frame sets the particle color to exactly one of the two fixed
hues, by a hard threshold of the morph factor at 0.5: fuchsia precisely
when the factor exceeds 0.5, violet otherwise, never an interpolated
color. -/
theorem claim7_color_threshold (sphereP explosionP : ℕ → ℝ) (factor : ℝ)
    (st : RenderState) :
    ((animateFrame sphereP explosionP factor st).colorHex = colorFuchsia ∨
      (animateFrame sphereP explosionP factor st).colorHex = colorViolet) ∧
    ((animateFrame sphereP explosionP factor st).colorHex = colorFuchsia ↔
      factor > 0.5) ∧
    colorFuchsia ≠ colorViolet := by
  have hne : colorFuchsia ≠ colorViolet := by
    norm_num [colorFuchsia, colorViolet]
  by_cases hf : factor > (0.5 : ℝ)
  · simp [animateFrame, hf, hne]
  · simp [animateFrame, hf, hne, Ne.symm hne]

/-- C9 counterexample: starting from a running session (live frame id, no
releases performed yet), invoking `cleanup` twice disposes the renderer
twice and issues the frame-callback cancellation twice, so the second
invocation does re-release already-released resources. -/
theorem claim9_counterexample :
    (cleanup (cleanup ⟨some 1, true, 0, 0⟩)).disposeCalls = 2 ∧
    (cleanup (cleanup ⟨some 1, true, 0, 0⟩)).cancelCalls = 2 := by
  constructor <;> rfl

/-- C9 amended: invoking teardown twice never throws (it is a total state
transition, defined in every session state, including one that never
started, where no cancellation is attempted) — but teardown is not
idempotent on resource release: `frameId` is never cleared, so a second
invocation disposes the renderer again and re-issues the cancellation
whenever the stored frame id is truthy. -/
theorem claim9_teardown (s : SceneResources) :
    (cleanup s).resizeListener = false ∧
    (cleanup s).frameId = s.frameId ∧
    (cleanup (cleanup s)).disposeCalls = s.disposeCalls + 2 ∧
    (cleanup (cleanup s)).cancelCalls
        = s.cancelCalls + (if truthyFrameId s.frameId then 2 else 0) ∧
    (s.frameId = none → (cleanup (cleanup s)).cancelCalls = s.cancelCalls) := by
  refine ⟨rfl, rfl, rfl, ?_, ?_⟩
  · by_cases h : truthyFrameId s.frameId <;> simp [cleanup, h]
  · intro hn
    simp [cleanup, hn, truthyFrameId]

/-- Over a non-decreasing timestamp sequence whose elements are at least the
stored `lastVideoTime`, the timestamps at which `detect` actually invokes
the recognizer are strictly increasing, each strictly above the starting
`lastVideoTime`. -/
theorem runDetect_invoked_strict (recognize : ℝ → GestureResult) :
    ∀ (l : List ℝ) (st : VisionState), l.Pairwise (· ≤ ·) →
      (∀ u ∈ l, st.lastVideoTime ≤ u) →
      (runDetect recognize st l).2.Pairwise (· < ·) ∧
      ∀ u ∈ (runDetect recognize st l).2, st.lastVideoTime < u := by
  intro l
  induction l with
  | nil => intro st _ _; simp [runDetect]
  | cons t ts ih =>
    intro st hp hb
    have hpt : ∀ u ∈ ts, t ≤ u := (List.pairwise_cons.1 hp).1
    have hpts : ts.Pairwise (· ≤ ·) := (List.pairwise_cons.1 hp).2
    have hst : st.lastVideoTime ≤ t := hb t (List.mem_cons_self t ts)
    by_cases hready : st.ready = false
    · have hstep : detect recognize st t = (none, st, false) := by
        simp [detect, hready]
      have hrun : runDetect recognize st (t :: ts)
          = ((runDetect recognize st ts).1, (runDetect recognize st ts).2) := by
        simp [runDetect, hstep]
      obtain ⟨ih1, ih2⟩ := ih st hpts fun u hu => hb u (List.mem_cons_of_mem _ hu)
      rw [hrun]
      exact ⟨ih1, ih2⟩
    · by_cases heq : t ≠ st.lastVideoTime
      · have hlt : st.lastVideoTime < t := lt_of_le_of_ne hst (Ne.symm heq)
        have hstep : detect recognize st t
            = (some (recognize t), ⟨st.ready, t⟩, true) := by
          simp [detect, hready, heq]
        obtain ⟨ih1, ih2⟩ := ih ⟨st.ready, t⟩ hpts fun u hu => hpt u hu
        have hrun : runDetect recognize st (t :: ts)
            = ((runDetect recognize ⟨st.ready, t⟩ ts).1,
                t :: (runDetect recognize ⟨st.ready, t⟩ ts).2) := by
          simp [runDetect, hstep]
        rw [hrun]
        constructor
        · exact List.pairwise_cons.2 ⟨fun u hu => ih2 u hu, ih1⟩
        · intro u hu
          rcases List.mem_cons.1 hu with rfl | hu
          · exact hlt
          · exact hlt.trans (ih2 u hu)
      · push_neg at heq
        have hstep : detect recognize st t = (none, st, false) := by
          simp [detect, hready, heq]
        have hrun : runDetect recognize st (t :: ts)
            = ((runDetect recognize st ts).1, (runDetect recognize st ts).2) := by
          simp [runDetect, hstep]
        obtain ⟨ih1, ih2⟩ := ih st hpts fun u hu => heq ▸ hpt u hu
        rw [hrun]
        exact ⟨ih1, ih2⟩

/-- C8: when the video timestamp has not advanced since the last check,
`detect` skips the cycle entirely — it returns `null`, does not invoke the
recognizer, and leaves its state unchanged; consequently, over any
monotonically non-decreasing timestamp sequence, the timestamps at which
the recognizer runs are strictly increasing, so no single video frame is
processed twice. -/
theorem claim8_frame_rate_limit (recognize : ℝ → GestureResult)
    (st : VisionState) (l : List ℝ) (hmono : l.Pairwise (· ≤ ·))
    (hb : ∀ u ∈ l, st.lastVideoTime ≤ u) :
    (∀ u, u = st.lastVideoTime → detect recognize st u = (none, st, false)) ∧
    (runDetect recognize st l).2.Pairwise (· < ·) := by
  constructor
  · intro u hu
    by_cases hready : st.ready = false
    · simp [detect, hready]
    · simp [detect, hready, hu]
  · exact (runDetect_invoked_strict recognize l st hmono hb).1

/-- Witness for C8: a repeated timestamp is skipped and the invoked
timestamps of the run over `[0, 0, 1]` are strictly increasing. -/
theorem claim8_frame_rate_limit_witness :
    detect (fun _ => ⟨[], []⟩) ⟨true, 0⟩ 0 = (none, ⟨true, 0⟩, false) ∧
    (runDetect (fun _ => ⟨[], []⟩) ⟨true, -1⟩ [0, 0, 1]).2.Pairwise (· < ·) := by
  have h1 := claim8_frame_rate_limit (fun _ => ⟨[], []⟩) ⟨true, 0⟩ []
    (by simp) (by simp)
  have h2 := claim8_frame_rate_limit (fun _ => ⟨[], []⟩) ⟨true, -1⟩ [0, 0, 1]
    (by norm_num [List.pairwise_cons])
    (by
      intro u hu
      simp only [List.mem_cons, List.mem_singleton] at hu
      rcases hu with rfl | rfl | hu
      · norm_num
      · norm_num
      · simp at hu; rw [hu]; norm_num)
  exact ⟨h1.1 0 rfl, h2.2⟩

/-- The spherical-coordinate point `(r cos a sin b, r sin a sin b, r cos b)`
has squared norm `r ^ 2`. -/
theorem sphericalNormSq (a b r : ℝ) :
    (r * Real.cos a * Real.sin b) ^ 2 + (r * Real.sin a * Real.sin b) ^ 2
      + (r * Real.cos b) ^ 2 = r ^ 2 := by
  have h1 := Real.sin_sq_add_cos_sq a
  have h2 := Real.sin_sq_add_cos_sq b
  linear_combination (r ^ 2 * Real.sin b ^ 2) * h1 + r ^ 2 * h2

/-- Every assembled point lies exactly on the sphere of the given radius. -/
theorem norm3_spherePoint (n : ℕ) (radius : ℝ) (hR : 0 ≤ radius) (i : ℕ) :
    norm3 (spherePoint n radius i) = radius := by
  unfold norm3 spherePoint
  rw [sphericalNormSq]
  exact Real.sqrt_sq hR

/-- Every exploded point lies exactly at radius
`sphereRadius + w * (explosionRadius - sphereRadius)` from the origin. -/
theorem norm3_explosionPoint (sphereRadius explosionRadius u v w : ℝ)
    (hr : 0 ≤ sphereRadius + w * (explosionRadius - sphereRadius)) :
    norm3 (explosionPoint sphereRadius explosionRadius u v w)
      = sphereRadius + w * (explosionRadius - sphereRadius) := by
  unfold norm3 explosionPoint
  rw [show ∀ a b r : ℝ, (r * Real.sin b * Real.cos a) ^ 2
      + (r * Real.sin b * Real.sin a) ^ 2 + (r * Real.cos b) ^ 2 = r ^ 2 from
    fun a b r => by linear_combination sphericalNormSq a b r]
  exact Real.sqrt_sq hr

/-- C3: for every particle count `n > 0`, both generated point sets have
length `n`; every assembled point's distance from the origin equals the
sphere radius; and, whatever values in `[0, 1)` the random sampler
returns, every exploded point's distance from the origin lies in
`[sphereRadius, explosionRadius]`. -/
theorem claim3_shape_generator (n : ℕ) (sphereRadius explosionRadius : ℝ)
    (rand : ℕ → ℝ) (hn : 0 < n) (hR : 0 ≤ sphereRadius)
    (hRE : sphereRadius ≤ explosionRadius)
    (hrand : ∀ k, 0 ≤ rand k ∧ rand k < 1) :
    (spherePositions n sphereRadius).length = n ∧
    (explosionPositions n sphereRadius explosionRadius rand).length = n ∧
    (∀ p ∈ spherePositions n sphereRadius, norm3 p = sphereRadius) ∧
    (∀ p ∈ explosionPositions n sphereRadius explosionRadius rand,
      sphereRadius ≤ norm3 p ∧ norm3 p ≤ explosionRadius) := by
  refine ⟨by simp [spherePositions], by simp [explosionPositions], ?_, ?_⟩
  · intro p hp
    simp only [spherePositions, List.mem_map] at hp
    obtain ⟨i, _, rfl⟩ := hp
    exact norm3_spherePoint n sphereRadius hR i
  · intro p hp
    simp only [explosionPositions, List.mem_map] at hp
    obtain ⟨i, _, rfl⟩ := hp
    have hw0 := (hrand (3 * i + 2)).1
    have hw1 := (hrand (3 * i + 2)).2
    have hr : 0 ≤ sphereRadius
        + rand (3 * i + 2) * (explosionRadius - sphereRadius) := by
      nlinarith
    rw [norm3_explosionPoint _ _ _ _ _ hr]
    constructor
    · nlinarith
    · nlinarith

/-- Witness for C3 with `n = 2`, the repository's radii, and the constant
sampler 0. -/
theorem claim3_shape_generator_witness :
    (spherePositions 2 1.5).length = 2 ∧
    (explosionPositions 2 1.5 8 fun _ => 0).length = 2 ∧
    norm3 (spherePoint 2 1.5 0) = 1.5 ∧
    (1.5 : ℝ) ≤ norm3 (explosionPoint 1.5 8 0 0 0) ∧
    norm3 (explosionPoint 1.5 8 0 0 0) ≤ 8 := by
  have h := claim3_shape_generator 2 1.5 8 (fun _ => 0) (by norm_num)
    (by norm_num) (by norm_num) (fun k => ⟨le_refl 0, by norm_num⟩)
  have hmem : spherePoint 2 1.5 0 ∈ spherePositions 2 1.5 := by
    simp only [spherePositions, List.mem_map]
    exact ⟨0, by simp, by simp⟩
  have hmem2 : explosionPoint 1.5 8 0 0 0
      ∈ explosionPositions 2 1.5 8 fun _ => 0 := by
    simp only [explosionPositions, List.mem_map]
    exact ⟨0, by simp, by simp⟩
  exact ⟨h.1, h.2.1, h.2.2.1 _ hmem, (h.2.2.2 _ hmem2).1, (h.2.2.2 _ hmem2).2⟩

/-- Witness for C9 (amended) on a never-started session state. -/
theorem claim9_teardown_witness :
    (cleanup (cleanup ⟨none, true, 5, 7⟩)).disposeCalls = 7 ∧
    (cleanup (cleanup ⟨none, true, 5, 7⟩)).cancelCalls = 7 := by
  have h := claim9_teardown ⟨none, true, 5, 7⟩
  constructor
  · rw [h.2.2.1]
  · rw [h.2.2.2.2 rfl]

/-- Whenever the ray direction is not parallel to the plane `z = 0`, the
point computed by `updateHandPosition` lies exactly on that plane. -/
theorem updateHandPosition_on_plane (cam : Camera) (x y : ℝ)
    (hz : (rayDirection cam x y).z ≠ 0) :
    (updateHandPosition cam x y).z = 0 := by
  show cam.position.z
      + -cam.position.z / (rayDirection cam x y).z * (rayDirection cam x y).z
    = 0
  field_simp

/-- Evaluation of the unprojected, camera-relative ray of the scene camera
on the clip-space point `(2x-1, -2y+1, 0.5)`. -/
theorem scene_ray_eval (aspect x y : ℝ) :
    subV (unproject (sceneCamera aspect) ⟨x * 2 - 1, -(y * 2) + 1, 0.5⟩)
        (sceneCamera aspect).position
      = ⟨aspect * Real.tan (75 * Real.pi / 360) * (x * 2 - 1) * (400 / 1003),
          Real.tan (75 * Real.pi / 360) * (-(y * 2) + 1) * (400 / 1003),
          -(400 / 1003)⟩ := by
  unfold sceneCamera unproject makePerspectiveInv translationMat applyMatrix4
    subV
  simp only [Vec3.mk.injEq]
  norm_num
  constructor <;> ring

/-- The scene camera's ray through the image center points straight down
the negative z-axis, for every aspect ratio. -/
theorem rayDirection_center (aspect : ℝ) :
    rayDirection (sceneCamera aspect) (1 / 2) (1 / 2) = ⟨0, 0, -1⟩ := by
  unfold rayDirection
  rw [scene_ray_eval]
  rw [show (⟨aspect * Real.tan (75 * Real.pi / 360) * (1 / 2 * 2 - 1)
        * (400 / 1003),
      Real.tan (75 * Real.pi / 360) * (-(1 / 2 * 2) + 1) * (400 / 1003),
      -(400 / 1003)⟩ : Vec3) = ⟨0, 0, -(400 / 1003)⟩ by
    simp only [Vec3.mk.injEq]; norm_num]
  unfold normalize3 norm3 smulV
  simp only [Vec3.mk.injEq]
  rw [show (0 : ℝ) ^ 2 + 0 ^ 2 + (-(400 / 1003)) ^ 2 = (400 / 1003) ^ 2 by
    norm_num]
  rw [Real.sqrt_sq (by norm_num)]
  norm_num

/-- The scene camera maps the image center to the world origin. -/
theorem updateHandPosition_center (aspect : ℝ) :
    updateHandPosition (sceneCamera aspect) (1 / 2) (1 / 2) = ⟨0, 0, 0⟩ := by
  show addV (sceneCamera aspect).position
      (smulV (-(sceneCamera aspect).position.z
          / (rayDirection (sceneCamera aspect) (1 / 2) (1 / 2)).z)
        (rayDirection (sceneCamera aspect) (1 / 2) (1 / 2)))
    = ⟨0, 0, 0⟩
  rw [rayDirection_center]
  unfold sceneCamera addV smulV
  simp only [Vec3.mk.injEq]
  norm_num

/-- C4: the Spatial Mapper forms the clip-space point `(2x-1, -2y+1, 0.5)`,
unprojects it through the camera's inverse projection, and intersects the
resulting ray with the plane `z = 0` via `t = -cameraZ / rayDirection.z`:
whenever the ray is not parallel to the plane, the returned point lies on
`z = 0`, and the image-center input `(0.5, 0.5)` maps exactly to the world
origin. -/
theorem claim4_spatial_mapper (aspect x y : ℝ)
    (hz : (rayDirection (sceneCamera aspect) x y).z ≠ 0) :
    (updateHandPosition (sceneCamera aspect) x y).z = 0 ∧
    updateHandPosition (sceneCamera aspect) (1 / 2) (1 / 2) = ⟨0, 0, 0⟩ :=
  ⟨updateHandPosition_on_plane (sceneCamera aspect) x y hz,
    updateHandPosition_center aspect⟩

/-- Witness for C4 at aspect ratio 1 and the image center. -/
theorem claim4_spatial_mapper_witness :
    (rayDirection (sceneCamera 1) (1 / 2) (1 / 2)).z ≠ 0 ∧
    ((updateHandPosition (sceneCamera 1) (1 / 2) (1 / 2)).z = 0 ∧
      updateHandPosition (sceneCamera 1) (1 / 2) (1 / 2) = ⟨0, 0, 0⟩) := by
  have hz : (rayDirection (sceneCamera 1) (1 / 2) (1 / 2)).z ≠ 0 := by
    rw [rayDirection_center]
    norm_num
  exact ⟨hz, claim4_spatial_mapper 1 (1 / 2) (1 / 2) hz⟩

/-- Normalization cancels in `updateHandPosition`: the computed point can be
read off the unnormalized camera-relative ray `u`. -/
theorem updateHandPosition_of_ray (cam : Camera) (x y : ℝ) (u : Vec3)
    (hu : subV (unproject cam ⟨x * 2 - 1, -(y * 2) + 1, 0.5⟩) cam.position = u)
    (hl : norm3 u ≠ 0) (hz : u.z ≠ 0) :
    updateHandPosition cam x y
      = addV cam.position (smulV (-cam.position.z / u.z) u) := by
  show addV cam.position
      (smulV (-cam.position.z / (rayDirection cam x y).z)
        (rayDirection cam x y))
    = addV cam.position (smulV (-cam.position.z / u.z) u)
  unfold rayDirection
  rw [hu]
  unfold normalize3 smulV addV norm3
  simp only [Vec3.mk.injEq]
  have hs : Real.sqrt (u.x ^ 2 + u.y ^ 2 + u.z ^ 2) ≠ 0 := hl
  refine ⟨?_, ?_, ?_⟩ <;> · field_simp; ring

/-- C5 counterexample: at a large aspect ratio, the edge input
`(x, y) = (0, 0.5)` produces an unprojected ray direction whose
z-component is within `1/1000` of zero, yet `updateHandPosition` still
issues a position update: the new particle-group target differs from the
retained previous position `(0, 0, 0)` (it is the far-away plane point
`(-40120, 0, 0)`), so no frame-skipping special case exists. -/
theorem claim5_counterexample :
    |(rayDirection
        (sceneCamera (5015 / Real.tan (75 * Real.pi / 360))) 0 (1 / 2)).z|
      < 1 / 1000 ∧
    nextHandPos (sceneCamera (5015 / Real.tan (75 * Real.pi / 360)))
        ⟨0, 0, 0⟩ 0 (1 / 2)
      ≠ ⟨0, 0, 0⟩ := by
  have ht : 0 < Real.tan (75 * Real.pi / 360) := by
    apply Real.tan_pos_of_pos_of_lt_pi_div_two
    · positivity
    · linarith [Real.pi_pos]
  have ht' : Real.tan (75 * Real.pi / 360) ≠ 0 := ne_of_gt ht
  have hu : subV
      (unproject (sceneCamera (5015 / Real.tan (75 * Real.pi / 360)))
        ⟨0 * 2 - 1, -(1 / 2 * 2) + 1, 0.5⟩)
      (sceneCamera (5015 / Real.tan (75 * Real.pi / 360))).position
      = ⟨-2000, 0, -(400 / 1003)⟩ := by
    rw [scene_ray_eval]
    simp only [Vec3.mk.injEq]
    refine ⟨?_, ?_, trivial⟩
    · rw [div_mul_cancel₀ 5015 ht']
      norm_num
    · norm_num
  have hL : (2000 : ℝ) ≤ norm3 ⟨-2000, 0, -(400 / 1003)⟩ := by
    unfold norm3
    rw [show (2000 : ℝ) = Real.sqrt (2000 ^ 2) from
      (Real.sqrt_sq (by norm_num)).symm]
    apply Real.sqrt_le_sqrt
    norm_num
  have hLpos : 0 < norm3 ⟨-2000, 0, -(400 / 1003)⟩ :=
    lt_of_lt_of_le (by norm_num) hL
  have hdz : (rayDirection
      (sceneCamera (5015 / Real.tan (75 * Real.pi / 360))) 0 (1 / 2)).z
      = 1 / norm3 ⟨-2000, 0, -(400 / 1003)⟩ * (-(400 / 1003)) := by
    unfold rayDirection
    rw [hu]
    rfl
  constructor
  · rw [hdz, abs_mul, abs_neg,
      abs_of_pos (by positivity :
        (0 : ℝ) < 1 / norm3 ⟨-2000, 0, -(400 / 1003)⟩),
      abs_of_pos (by norm_num : (0 : ℝ) < 400 / 1003)]
    have h1L : 1 / norm3 ⟨-2000, 0, -(400 / 1003)⟩ ≤ 1 / 2000 :=
      one_div_le_one_div_of_le (by norm_num) hL
    calc 1 / norm3 ⟨-2000, 0, -(400 / 1003)⟩ * (400 / 1003)
        ≤ 1 / 2000 * (400 / 1003) :=
          mul_le_mul_of_nonneg_right h1L (by norm_num)
      _ < 1 / 1000 := by norm_num
  · have hval : nextHandPos
        (sceneCamera (5015 / Real.tan (75 * Real.pi / 360)))
        ⟨0, 0, 0⟩ 0 (1 / 2)
        = ⟨-40120, 0, 0⟩ := by
      show updateHandPosition
          (sceneCamera (5015 / Real.tan (75 * Real.pi / 360))) 0 (1 / 2)
        = ⟨-40120, 0, 0⟩
      rw [updateHandPosition_of_ray _ 0 (1 / 2) ⟨-2000, 0, -(400 / 1003)⟩ hu
        (ne_of_gt hLpos) (by norm_num)]
      unfold sceneCamera addV smulV
      simp only [Vec3.mk.injEq]
      norm_num
    rw [hval]
    simp only [ne_eq, Vec3.mk.injEq, not_and]
    intro hcon
    norm_num at hcon

/-- C5 amended: the Spatial Mapper has no special case for rays nearly
parallel to the plane `z = 0`. For every input whose ray direction merely
has nonzero z-component — however close to zero — the division
`t = -cameraZ / rayDirection.z` is performed and the position update is
issued toward the plane intersection (`z = 0`); the issued target is
entirely independent of the previous position, which is never retained. -/
theorem claim5_no_skip (cam : Camera) (p q : Vec3) (x y : ℝ)
    (hz : (rayDirection cam x y).z ≠ 0) :
    (nextHandPos cam p x y).z = 0 ∧
    nextHandPos cam p x y = nextHandPos cam q x y :=
  ⟨updateHandPosition_on_plane cam x y hz, rfl⟩

/-- Witness for the amended C5 at the scene camera with aspect 1. -/
theorem claim5_no_skip_witness :
    (rayDirection (sceneCamera 1) (1 / 2) (1 / 2)).z ≠ 0 ∧
    ((nextHandPos (sceneCamera 1) ⟨1, 2, 3⟩ (1 / 2) (1 / 2)).z = 0 ∧
      nextHandPos (sceneCamera 1) ⟨1, 2, 3⟩ (1 / 2) (1 / 2)
        = nextHandPos (sceneCamera 1) ⟨4, 5, 6⟩ (1 / 2) (1 / 2)) := by
  have hz : (rayDirection (sceneCamera 1) (1 / 2) (1 / 2)).z ≠ 0 := by
    rw [rayDirection_center]
    norm_num
  exact ⟨hz, claim5_no_skip (sceneCamera 1) ⟨1, 2, 3⟩ ⟨4, 5, 6⟩ (1 / 2) (1 / 2) hz⟩

/-- A fingertip pair aligned on the y-axis has pinch distance equal to the
difference of the x-coordinates, whatever the z-coordinates. -/
theorem pinchDistance_x (a b z₁ z₂ : ℝ) (hab : 0 ≤ a - b) :
    pinchDistance ⟨a, 0, z₁⟩ ⟨b, 0, z₂⟩ = a - b := by
  unfold pinchDistance
  rw [show (a - b) ^ 2 + ((0 : ℝ) - 0) ^ 2 = (a - b) ^ 2 by ring]
  exact Real.sqrt_sq hab

/-- `headD` with default is `getD 0`. -/
theorem headD_eq_getD_zero {α : Type} (l : List α) (d : α) :
    l.headD d = l.getD 0 d := by
  cases l <;> rfl

/-- Coherence of `classifyTarget` with `predictWebcam`: when a result
classifies to target `t`, the frame step ends in state `t` and issues a
tween trigger exactly when the previous state differs from `t`. -/
theorem predictWebcam_classify (prev : ParticleState)
    (res : Option GestureResult) (t : ParticleState)
    (h : classifyTarget res = some t) :
    (predictWebcam prev res).state = t ∧
    (predictWebcam prev res).trigger = if prev = t then none else some t := by
  match res with
  | none => simp [classifyTarget] at h
  | some r =>
    simp only [classifyTarget] at h
    simp only [predictWebcam]
    by_cases hlen : r.landmarks.length > 0
    · rw [if_pos hlen] at h ⊢
      by_cases hd : pinchDistance ((r.landmarks.headD []).getD 4 defaultLandmark)
          ((r.landmarks.headD []).getD 8 defaultLandmark) < PINCH_THRESHOLD
      · rw [if_pos hd] at h ⊢
        obtain rfl : ParticleState.SPHERE = t := Option.some.inj h
        by_cases hp : prev = ParticleState.SPHERE
        · rw [if_neg (not_not_intro hp), if_pos hp]
          exact ⟨rfl, rfl⟩
        · rw [if_pos hp, if_neg hp]
          exact ⟨rfl, rfl⟩
      · rw [if_neg hd] at h ⊢
        by_cases ho : isOpenPalm (r.gestures.headD []) ∨
            pinchDistance ((r.landmarks.headD []).getD 4 defaultLandmark)
              ((r.landmarks.headD []).getD 8 defaultLandmark) > 0.2
        · rw [if_pos ho] at h ⊢
          obtain rfl : ParticleState.EXPLODED = t := Option.some.inj h
          by_cases hp : prev = ParticleState.EXPLODED
          · rw [if_neg (not_not_intro hp), if_pos hp]
            exact ⟨rfl, rfl⟩
          · rw [if_pos hp, if_neg hp]
            exact ⟨rfl, rfl⟩
        · rw [if_neg ho] at h
          exact absurd h (by simp)
    · rw [if_neg hlen] at h
      exact absurd h (by simp)

/-- C2: with a hand present, the classifier thresholds the computed
fingertip distance: below the pinch threshold the state becomes assembled;
otherwise, with an open-palm classification above confidence 0.5 or a
distance above 0.2, it becomes exploded; otherwise the previous state is
retained and no trigger is issued. -/
theorem claim2_gesture_classification (prev : ParticleState)
    (res : GestureResult) (hlen : res.landmarks.length > 0) :
    (pinchDistance ((res.landmarks.headD []).getD 4 defaultLandmark)
        ((res.landmarks.headD []).getD 8 defaultLandmark) < PINCH_THRESHOLD →
      (predictWebcam prev (some res)).state = ParticleState.SPHERE) ∧
    (¬ pinchDistance ((res.landmarks.headD []).getD 4 defaultLandmark)
        ((res.landmarks.headD []).getD 8 defaultLandmark) < PINCH_THRESHOLD →
      (isOpenPalm (res.gestures.headD []) ∨
        pinchDistance ((res.landmarks.headD []).getD 4 defaultLandmark)
          ((res.landmarks.headD []).getD 8 defaultLandmark) > 0.2) →
      (predictWebcam prev (some res)).state = ParticleState.EXPLODED) ∧
    (¬ pinchDistance ((res.landmarks.headD []).getD 4 defaultLandmark)
        ((res.landmarks.headD []).getD 8 defaultLandmark) < PINCH_THRESHOLD →
      ¬ (isOpenPalm (res.gestures.headD []) ∨
        pinchDistance ((res.landmarks.headD []).getD 4 defaultLandmark)
          ((res.landmarks.headD []).getD 8 defaultLandmark) > 0.2) →
      (predictWebcam prev (some res)).state = prev ∧
      (predictWebcam prev (some res)).trigger = none) := by
  refine ⟨?_, ?_, ?_⟩
  · intro hd
    simp only [predictWebcam]
    rw [if_pos hlen, if_pos hd]
    by_cases hp : prev = ParticleState.SPHERE
    · rw [if_neg (not_not_intro hp)]
    · rw [if_pos hp]
  · intro hd ho
    simp only [predictWebcam]
    rw [if_pos hlen, if_neg hd, if_pos ho]
    by_cases hp : prev = ParticleState.EXPLODED
    · rw [if_neg (not_not_intro hp)]
    · rw [if_pos hp]
  · intro hd ho
    simp only [predictWebcam]
    rw [if_pos hlen, if_neg hd, if_neg ho]
    exact ⟨rfl, rfl⟩

/-- Witness for C2: distance 0.03 yields assembled, 0.25 yields exploded,
and 0.15 without an open palm yields no change. -/
theorem claim2_gesture_classification_witness :
    (predictWebcam ParticleState.EXPLODED
      (some ⟨[[defaultLandmark, defaultLandmark, defaultLandmark,
        defaultLandmark, ⟨0.03, 0, 0.9⟩]], []⟩)).state
      = ParticleState.SPHERE ∧
    (predictWebcam ParticleState.SPHERE
      (some ⟨[[defaultLandmark, defaultLandmark, defaultLandmark,
        defaultLandmark, ⟨0.25, 0, 0⟩]], []⟩)).state
      = ParticleState.EXPLODED ∧
    (predictWebcam ParticleState.EXPLODED
      (some ⟨[[defaultLandmark, defaultLandmark, defaultLandmark,
        defaultLandmark, ⟨0.15, 0, 0⟩]],
        [[⟨"Closed_Fist", 0.9⟩]]⟩)).state
      = ParticleState.EXPLODED ∧
    (predictWebcam ParticleState.EXPLODED
      (some ⟨[[defaultLandmark, defaultLandmark, defaultLandmark,
        defaultLandmark, ⟨0.15, 0, 0⟩]],
        [[⟨"Closed_Fist", 0.9⟩]]⟩)).trigger
      = none := by
  have e1 : pinchDistance
      (((⟨[[defaultLandmark, defaultLandmark, defaultLandmark,
          defaultLandmark, ⟨0.03, 0, 0.9⟩]], []⟩ :
        GestureResult).landmarks.headD []).getD 4 defaultLandmark)
      (((⟨[[defaultLandmark, defaultLandmark, defaultLandmark,
          defaultLandmark, ⟨0.03, 0, 0.9⟩]], []⟩ :
        GestureResult).landmarks.headD []).getD 8 defaultLandmark)
      = 0.03 := by
    show pinchDistance ⟨0.03, 0, 0.9⟩ ⟨0, 0, 0⟩ = 0.03
    rw [pinchDistance_x 0.03 0 0.9 0 (by norm_num)]
    norm_num
  have e2 : pinchDistance
      (((⟨[[defaultLandmark, defaultLandmark, defaultLandmark,
          defaultLandmark, ⟨0.25, 0, 0⟩]], []⟩ :
        GestureResult).landmarks.headD []).getD 4 defaultLandmark)
      (((⟨[[defaultLandmark, defaultLandmark, defaultLandmark,
          defaultLandmark, ⟨0.25, 0, 0⟩]], []⟩ :
        GestureResult).landmarks.headD []).getD 8 defaultLandmark)
      = 0.25 := by
    show pinchDistance ⟨0.25, 0, 0⟩ ⟨0, 0, 0⟩ = 0.25
    rw [pinchDistance_x 0.25 0 0 0 (by norm_num)]
    norm_num
  have e3 : pinchDistance
      (((⟨[[defaultLandmark, defaultLandmark, defaultLandmark,
          defaultLandmark, ⟨0.15, 0, 0⟩]],
        [[⟨"Closed_Fist", 0.9⟩]]⟩ :
        GestureResult).landmarks.headD []).getD 4 defaultLandmark)
      (((⟨[[defaultLandmark, defaultLandmark, defaultLandmark,
          defaultLandmark, ⟨0.15, 0, 0⟩]],
        [[⟨"Closed_Fist", 0.9⟩]]⟩ :
        GestureResult).landmarks.headD []).getD 8 defaultLandmark)
      = 0.15 := by
    show pinchDistance ⟨0.15, 0, 0⟩ ⟨0, 0, 0⟩ = 0.15
    rw [pinchDistance_x 0.15 0 0 0 (by norm_num)]
    norm_num
  have h1 := claim2_gesture_classification ParticleState.EXPLODED
    ⟨[[defaultLandmark, defaultLandmark, defaultLandmark, defaultLandmark,
      ⟨0.03, 0, 0.9⟩]], []⟩ (by simp)
  have h2 := claim2_gesture_classification ParticleState.SPHERE
    ⟨[[defaultLandmark, defaultLandmark, defaultLandmark, defaultLandmark,
      ⟨0.25, 0, 0⟩]], []⟩ (by simp)
  have h3 := claim2_gesture_classification ParticleState.EXPLODED
    ⟨[[defaultLandmark, defaultLandmark, defaultLandmark, defaultLandmark,
      ⟨0.15, 0, 0⟩]], [[⟨"Closed_Fist", 0.9⟩]]⟩ (by simp)
  have h3no : ¬ (isOpenPalm
      ((⟨[[defaultLandmark, defaultLandmark, defaultLandmark,
          defaultLandmark, ⟨0.15, 0, 0⟩]],
        [[⟨"Closed_Fist", 0.9⟩]]⟩ :
        GestureResult).gestures.headD []) ∨
      pinchDistance
        (((⟨[[defaultLandmark, defaultLandmark, defaultLandmark,
            defaultLandmark, ⟨0.15, 0, 0⟩]],
          [[⟨"Closed_Fist", 0.9⟩]]⟩ :
          GestureResult).landmarks.headD []).getD 4 defaultLandmark)
        (((⟨[[defaultLandmark, defaultLandmark, defaultLandmark,
            defaultLandmark, ⟨0.15, 0, 0⟩]],
          [[⟨"Closed_Fist", 0.9⟩]]⟩ :
          GestureResult).landmarks.headD []).getD 8 defaultLandmark)
        > 0.2) := by
    rw [e3]
    rintro (hop | hgt)
    · obtain ⟨g, hg, hname, _⟩ := hop
      simp only [List.headD_cons, List.mem_singleton] at hg
      subst hg
      simp at hname
    · norm_num at hgt
  have hout3 := h3.2.2 (by rw [e3]; norm_num [PINCH_THRESHOLD]) h3no
  refine ⟨h1.1 (by rw [e1]; norm_num [PINCH_THRESHOLD]),
    h2.2.1 (by rw [e2]; norm_num [PINCH_THRESHOLD])
      (Or.inr (by rw [e2]; norm_num)),
    hout3.1, hout3.2⟩

/-- C6: a tween trigger is issued exactly when the computed target differs
from the last-issued state, so two consecutive detector results
classifying to the same target produce exactly one tween invocation (none
at all if that target was already active). -/
theorem claim6_idempotent_triggers (prev : ParticleState)
    (res res₂ : Option GestureResult) (t : ParticleState)
    (h : classifyTarget res = some t) (h₂ : classifyTarget res₂ = some t) :
    ((predictWebcam prev res).trigger ≠ none ↔ prev ≠ t) ∧
    numTriggers (predictWebcam prev res)
        + numTriggers (predictWebcam (predictWebcam prev res).state res₂)
      = if prev = t then 0 else 1 := by
  obtain ⟨hs1, ht1⟩ := predictWebcam_classify prev res t h
  obtain ⟨hs2, ht2⟩ :=
    predictWebcam_classify (predictWebcam prev res).state res₂ t h₂
  rw [hs1] at ht2
  rw [if_pos rfl] at ht2
  constructor
  · rw [ht1]
    by_cases hp : prev = t <;> simp [hp]
  · rw [hs1]
    simp only [numTriggers]
    rw [ht1, ht2]
    by_cases hp : prev = t <;> simp [hp]

/-- Witness for C6: two consecutive distance-0.25 frames from the assembled
state yield exactly one explosion tween. -/
theorem claim6_idempotent_triggers_witness :
    classifyTarget (some ⟨[[defaultLandmark, defaultLandmark,
        defaultLandmark, defaultLandmark, ⟨0.25, 0, 0⟩]], []⟩)
      = some ParticleState.EXPLODED ∧
    numTriggers (predictWebcam ParticleState.SPHERE
        (some ⟨[[defaultLandmark, defaultLandmark, defaultLandmark,
          defaultLandmark, ⟨0.25, 0, 0⟩]], []⟩))
      + numTriggers (predictWebcam
          (predictWebcam ParticleState.SPHERE
            (some ⟨[[defaultLandmark, defaultLandmark, defaultLandmark,
              defaultLandmark, ⟨0.25, 0, 0⟩]], []⟩)).state
          (some ⟨[[defaultLandmark, defaultLandmark, defaultLandmark,
            defaultLandmark, ⟨0.25, 0, 0⟩]], []⟩))
      = 1 := by
  have hd : pinchDistance ⟨0.25, 0, 0⟩ defaultLandmark = 0.25 := by
    show pinchDistance ⟨0.25, 0, 0⟩ ⟨0, 0, 0⟩ = 0.25
    rw [pinchDistance_x 0.25 0 0 0 (by norm_num)]
    norm_num
  have hcl : classifyTarget (some ⟨[[defaultLandmark, defaultLandmark,
      defaultLandmark, defaultLandmark, ⟨0.25, 0, 0⟩]], []⟩)
      = some ParticleState.EXPLODED := by
    rw [show classifyTarget (some ⟨[[defaultLandmark, defaultLandmark,
        defaultLandmark, defaultLandmark, ⟨0.25, 0, 0⟩]], []⟩)
      = (if pinchDistance ⟨0.25, 0, 0⟩ defaultLandmark < PINCH_THRESHOLD then
          some ParticleState.SPHERE
        else if isOpenPalm [] ∨
            pinchDistance ⟨0.25, 0, 0⟩ defaultLandmark > 0.2 then
          some ParticleState.EXPLODED
        else none) from rfl]
    rw [if_neg (by rw [hd]; norm_num [PINCH_THRESHOLD])]
    rw [if_pos (Or.inr (by rw [hd]; norm_num))]
  have h := claim6_idempotent_triggers ParticleState.SPHERE
    (some ⟨[[defaultLandmark, defaultLandmark, defaultLandmark,
      defaultLandmark, ⟨0.25, 0, 0⟩]], []⟩)
    (some ⟨[[defaultLandmark, defaultLandmark, defaultLandmark,
      defaultLandmark, ⟨0.25, 0, 0⟩]], []⟩)
    ParticleState.EXPLODED hcl hcl
  refine ⟨hcl, ?_⟩
  rw [h.2]
  simp

/-- C10: two detector results that agree on the x and y components of all
landmarks and on the gesture classifications, but differ arbitrarily in
the z components of the thumb-tip and index-tip, produce the same pinch
distance and the same frame output (state, trigger, status string and
forwarded hand position) from any previous state. -/
theorem claim10_z_independence (r r₂ : GestureResult)
    (h : agreesExceptTipZ r r₂) :
    pinchDistance ((r.landmarks.headD []).getD 4 defaultLandmark)
        ((r.landmarks.headD []).getD 8 defaultLandmark)
      = pinchDistance ((r₂.landmarks.headD []).getD 4 defaultLandmark)
        ((r₂.landmarks.headD []).getD 8 defaultLandmark) ∧
    ∀ prev, predictWebcam prev (some r) = predictWebcam prev (some r₂) := by
  obtain ⟨hg, hlen, hlm⟩ := h
  have h0 := hlm 0
  have hx4 : ((r.landmarks.headD []).getD 4 defaultLandmark).x
      = ((r₂.landmarks.headD []).getD 4 defaultLandmark).x := by
    rw [headD_eq_getD_zero, headD_eq_getD_zero]
    exact (h0.2 4).1
  have hy4 : ((r.landmarks.headD []).getD 4 defaultLandmark).y
      = ((r₂.landmarks.headD []).getD 4 defaultLandmark).y := by
    rw [headD_eq_getD_zero, headD_eq_getD_zero]
    exact (h0.2 4).2.1
  have hx8 : ((r.landmarks.headD []).getD 8 defaultLandmark).x
      = ((r₂.landmarks.headD []).getD 8 defaultLandmark).x := by
    rw [headD_eq_getD_zero, headD_eq_getD_zero]
    exact (h0.2 8).1
  have hy8 : ((r.landmarks.headD []).getD 8 defaultLandmark).y
      = ((r₂.landmarks.headD []).getD 8 defaultLandmark).y := by
    rw [headD_eq_getD_zero, headD_eq_getD_zero]
    exact (h0.2 8).2.1
  have hx9 : ((r.landmarks.headD []).getD 9 defaultLandmark).x
      = ((r₂.landmarks.headD []).getD 9 defaultLandmark).x := by
    rw [headD_eq_getD_zero, headD_eq_getD_zero]
    exact (h0.2 9).1
  have hy9 : ((r.landmarks.headD []).getD 9 defaultLandmark).y
      = ((r₂.landmarks.headD []).getD 9 defaultLandmark).y := by
    rw [headD_eq_getD_zero, headD_eq_getD_zero]
    exact (h0.2 9).2.1
  have hdist : pinchDistance ((r.landmarks.headD []).getD 4 defaultLandmark)
      ((r.landmarks.headD []).getD 8 defaultLandmark)
      = pinchDistance ((r₂.landmarks.headD []).getD 4 defaultLandmark)
        ((r₂.landmarks.headD []).getD 8 defaultLandmark) := by
    unfold pinchDistance
    rw [hx4, hy4, hx8, hy8]
  refine ⟨hdist, ?_⟩
  intro prev
  by_cases hL : r.landmarks.length > 0
  · have hL₂ : r₂.landmarks.length > 0 := hlen ▸ hL
    simp only [predictWebcam]
    rw [if_pos hL, if_pos hL₂, hdist, hg, hx9, hy9]
  · have hL₂ : ¬ r₂.landmarks.length > 0 := by rw [← hlen]; exact hL
    simp only [predictWebcam]
    rw [if_neg hL, if_neg hL₂]

/-- Witness for C10: two results differing only in the thumb-tip z depth
produce identical frame outputs. -/
theorem claim10_z_independence_witness :
    agreesExceptTipZ
      ⟨[[defaultLandmark, defaultLandmark, defaultLandmark,
        defaultLandmark, ⟨0.03, 0.04, 0.9⟩]], [[⟨"Open_Palm", 0.3⟩]]⟩
      ⟨[[defaultLandmark, defaultLandmark, defaultLandmark,
        defaultLandmark, ⟨0.03, 0.04, -0.7⟩]], [[⟨"Open_Palm", 0.3⟩]]⟩ ∧
    predictWebcam ParticleState.SPHERE
        (some ⟨[[defaultLandmark, defaultLandmark, defaultLandmark,
          defaultLandmark, ⟨0.03, 0.04, 0.9⟩]], [[⟨"Open_Palm", 0.3⟩]]⟩)
      = predictWebcam ParticleState.SPHERE
        (some ⟨[[defaultLandmark, defaultLandmark, defaultLandmark,
          defaultLandmark, ⟨0.03, 0.04, -0.7⟩]], [[⟨"Open_Palm", 0.3⟩]]⟩) := by
  have hrel : agreesExceptTipZ
      ⟨[[defaultLandmark, defaultLandmark, defaultLandmark,
        defaultLandmark, ⟨0.03, 0.04, 0.9⟩]], [[⟨"Open_Palm", 0.3⟩]]⟩
      ⟨[[defaultLandmark, defaultLandmark, defaultLandmark,
        defaultLandmark, ⟨0.03, 0.04, -0.7⟩]], [[⟨"Open_Palm", 0.3⟩]]⟩ := by
    refine ⟨rfl, rfl, ?_⟩
    intro h
    rcases h with _ | h
    · refine ⟨rfl, ?_⟩
      intro i
      rcases i with _ | _ | _ | _ | _ | i
      · exact ⟨rfl, rfl, fun _ _ => rfl⟩
      · exact ⟨rfl, rfl, fun _ _ => rfl⟩
      · exact ⟨rfl, rfl, fun _ _ => rfl⟩
      · exact ⟨rfl, rfl, fun _ _ => rfl⟩
      · exact ⟨rfl, rfl, fun h4 _ => absurd rfl h4⟩
      · exact ⟨rfl, rfl, fun _ _ => rfl⟩
    · refine ⟨rfl, ?_⟩
      intro i
      exact ⟨rfl, rfl, fun _ _ => rfl⟩
  exact ⟨hrel, (claim10_z_independence _ _ hrel).2 ParticleState.SPHERE⟩

end

end VBall
